import Mathlib

/-!
Verification of the KnowThis AI-voice-detection core.

The repository has two pieces of core logic, both in src/main.py:

  - extract_audio_features (the Feature Extractor): turns a decoded mono
    sample buffer into a feature dictionary.  All spectral transforms are
    delegated to an external audio library (librosa) and all statistical
    aggregation to an external numeric library (numpy); the only in-repo
    logic is the per-frame pitch-selection loop, the voiced-frame filter,
    the zero default when no voiced frames exist, and the assembly of the
    feature dictionary.

  - detect_ai_voice (the Heuristic Scorer): a rule-based scorer that maps
    the feature dictionary to (probability, label, reasons).

We shallowly embed both.  Feature values are modelled as rationals: the
scorer compares against exact decimal thresholds and adds exact decimal
increments, so the rationals are a faithful idealisation of the float
arithmetic for every property stated here.  Reasons and labels are emitted
by the source as fixed Turkish strings; we model them as an inductive type
whose constructors are named by the meaning of each string (matching the
wording the design documents use) and record the exact source text in a
separate rendering function.
-/

/-- The label of a detection result.  The source emits the strings
Düşük / Orta / Yüksek, which mean Low / Medium / High. -/
inductive Label where
  | low
  | medium
  | high
deriving DecidableEq, Repr

/-- The source string rendered for each label. -/
def Label.text : Label → String
  | .low => "Düşük"
  | .medium => "Orta"
  | .high => "Yüksek"

/-- The reasons the scorer can emit, one constructor per reason string
appearing in detect_ai_voice. -/
inductive Reason where
  | lowMfccVariation
  | highMfccVariation
  | highSpectralStability
  | naturalSpectralVariation
  | regularCrossingRate
  | homogeneousEnergyDistribution
  | naturalEnergyDistribution
  | highPitchStability
  | generalAcousticPattern
deriving DecidableEq, Repr

/-- The source string rendered for each reason. -/
def Reason.text : Reason → String
  | .lowMfccVariation => "MFCC varyasyonu düşük (yapay ses özelliği)"
  | .highMfccVariation => "MFCC varyasyonu yüksek (doğal ses özelliği)"
  | .highSpectralStability => "Spektral kararlılık yüksek"
  | .naturalSpectralVariation => "Spektral varyasyon doğal seviyede"
  | .regularCrossingRate => "Ses geçiş oranı çok düzenli"
  | .homogeneousEnergyDistribution => "Enerji dağılımı homojen"
  | .naturalEnergyDistribution => "Enerji dağılımı natural"
  | .highPitchStability => "Perde kararlılığı yüksek"
  | .generalAcousticPattern => "Genel ses analizi paternleri"

/-- Arithmetic mean of a list of rationals, the model of np.mean on a
one-dimensional array (for the empty list np.mean is undefined; the
rational convention of division by zero returning zero is never relied
on by any theorem below). -/
def listMean (l : List ℚ) : ℚ := l.sum / (l.length : ℚ)

/-- The feature dictionary built by extract_audio_features, one field per
key.  mfcc_mean and mfcc_std are the per-band vectors (13 entries when
produced by the extractor). -/
structure FeatureSet where
  mfcc_mean : List ℚ
  mfcc_std : List ℚ
  spectral_centroid_mean : ℚ
  spectral_centroid_std : ℚ
  spectral_rolloff_mean : ℚ
  zcr_mean : ℚ
  zcr_std : ℚ
  rms_mean : ℚ
  rms_std : ℚ
  pitch_mean : ℚ
  pitch_std : ℚ
deriving DecidableEq, Repr

/-- mfcc_variation, line 147 of the source: np.mean(features[mfcc_std]). -/
def mfccVariation (features : FeatureSet) : ℚ := listMean features.mfcc_std

/-- The score accumulator of detect_ai_voice (lines 144 to 178 of the
source).  The source interleaves the score updates and the reason appends
in one pass; the two results never interact, so we split the pass into a
score pass (this definition) and a reason pass (reasonsList below), each
mirroring the source conditionals verbatim. -/
def scoreAcc (features : FeatureSet) : ℚ :=
  let mfcc_variation := mfccVariation features
  let score : ℚ := 1/2
  let score := if mfcc_variation < 15 then score + 15/100
    else if mfcc_variation > 25 then score - 1/10
    else score
  let score := if features.spectral_centroid_std < 400 then score + 1/10 else score
  let score := if features.zcr_std < 2/100 then score + 1/10 else score
  let score := if features.rms_std < 1/100 then score + 1/10 else score
  let score := if features.pitch_std < 50 ∧ features.pitch_mean > 0 then score + 5/100 else score
  score

/-- The reason list accumulated by detect_ai_voice before the fallback
append and the truncation (lines 143 to 178 of the source). -/
def reasonsList (features : FeatureSet) : List Reason :=
  let mfcc_variation := mfccVariation features
  let reasons : List Reason := []
  let reasons := if mfcc_variation < 15 then reasons ++ [Reason.lowMfccVariation]
    else if mfcc_variation > 25 then reasons ++ [Reason.highMfccVariation]
    else reasons
  let reasons := if features.spectral_centroid_std < 400 then reasons ++ [Reason.highSpectralStability]
    else reasons ++ [Reason.naturalSpectralVariation]
  let reasons := if features.zcr_std < 2/100 then reasons ++ [Reason.regularCrossingRate] else reasons
  let reasons := if features.rms_std < 1/100 then reasons ++ [Reason.homogeneousEnergyDistribution]
    else reasons ++ [Reason.naturalEnergyDistribution]
  let reasons := if features.pitch_std < 50 ∧ features.pitch_mean > 0 then reasons ++ [Reason.highPitchStability]
    else reasons
  reasons

/-- The label computation of detect_ai_voice, lines 183 to 188. -/
def labelOf (probability : ℚ) : Label :=
  if probability < 35/100 then Label.low
  else if probability < 65/100 then Label.medium
  else Label.high

/-- detect_ai_voice, lines 138 to 194: clamp the accumulator to the range
from 0.1 to 0.95, derive the label, append the fallback reason when fewer
than three reasons fired, and truncate the reasons to three. -/
def detect_ai_voice (features : FeatureSet) : ℚ × Label × List Reason :=
  let score := scoreAcc features
  let probability := max (1/10) (min (19/20) score)
  let label := labelOf probability
  let reasons := reasonsList features
  let reasons := if reasons.length < 3 then reasons ++ [Reason.generalAcousticPattern] else reasons
  (probability, label, reasons.take 3)

/-- One analysis frame of the pitch-tracking output (one column of the
pitches and magnitudes matrices returned by the external pitch tracker):
the candidate pitch of every frequency bin and the estimated magnitude of
every bin. -/
structure PitchFrame where
  pitches : List ℚ
  magnitudes : List ℚ
deriving DecidableEq, Repr

/-- First index of the maximum entry, the model of np.argmax on a
one-dimensional array: a later entry replaces the current best only when
strictly greater, so the first maximum wins. -/
def argmaxIdx (l : List ℚ) : Nat :=
  (List.range l.length).foldl
    (fun best i => if l.getD i 0 > l.getD best 0 then i else best) 0

/-- The pitch the source selects for a frame, lines 124 and 125: the
entry of the pitch column at the index of the strongest magnitude. -/
def selectedPitch (fr : PitchFrame) : ℚ :=
  fr.pitches.getD (argmaxIdx fr.magnitudes) 0

/-- The voiced pitch collection of the source loop, lines 122 to 127: the
selected pitch of each frame, kept only when strictly positive, in frame
order. -/
def pitchValues (frames : List PitchFrame) : List ℚ :=
  frames.filterMap fun fr =>
    if selectedPitch fr > 0 then some (selectedPitch fr) else none

/-- The typed error raised when a buffer cannot be spectrally analyzed
(the external library raises a parameter error on a degenerate buffer and
the extractor lets it propagate). -/
inductive AnalysisError where
  | parameterError (msg : String)
deriving DecidableEq, Repr

/-- The statistical aggregation primitive delegated to the external
numeric library whose exact value the embedding leaves abstract: np.std,
the square root of the mean squared deviation, has no exact rational
counterpart.  Every theorem below holds for every std function, so in
particular for the real one. -/
structure NumLib where
  std : List ℚ → ℚ

/-- The external audio-analysis library (librosa) as seen by the
extractor: each descriptor transform either returns its frame-wise values
or fails on a buffer it cannot analyze.  mfcc returns one list per band
(13 bands over time); piptrack returns the per-frame pitch and magnitude
columns. -/
structure AudioLib where
  mfcc : List ℚ → Except AnalysisError (List (List ℚ))
  spectral_centroid : List ℚ → Except AnalysisError (List ℚ)
  spectral_rolloff : List ℚ → Except AnalysisError (List ℚ)
  zero_crossing_rate : List ℚ → Except AnalysisError (List ℚ)
  rms : List ℚ → Except AnalysisError (List ℚ)
  piptrack : List ℚ → Except AnalysisError (List PitchFrame)

/-- extract_audio_features, lines 91 to 136 of the source, over an
abstract audio library and numeric library.  Python exception propagation
is modelled by the Except monad: the first failing transform aborts the
call, and the feature dictionary is assembled only after every transform
has succeeded.  The per-frame pitch selection, the voiced filter and the
zero default are the in-repo logic and are modelled exactly. -/
def extract_audio_features (lib : AudioLib) (num : NumLib) (audio : List ℚ) :
    Except AnalysisError FeatureSet := do
  let mfcc ← lib.mfcc audio
  let spectral_centroid ← lib.spectral_centroid audio
  let spectral_rolloff ← lib.spectral_rolloff audio
  let zcr ← lib.zero_crossing_rate audio
  let rms ← lib.rms audio
  let frames ← lib.piptrack audio
  let pitch_values := pitchValues frames
  pure
    { mfcc_mean := mfcc.map listMean
      mfcc_std := mfcc.map num.std
      spectral_centroid_mean := listMean spectral_centroid
      spectral_centroid_std := num.std spectral_centroid
      spectral_rolloff_mean := listMean spectral_rolloff
      zcr_mean := listMean zcr
      zcr_std := num.std zcr
      rms_mean := listMean rms
      rms_std := num.std rms
      pitch_mean := if pitch_values ≠ [] then listMean pitch_values else 0
      pitch_std := if pitch_values ≠ [] then num.std pitch_values else 0 }

/-- The score adjustment of the MFCC rule viewed in isolation. -/
def mfccDelta (features : FeatureSet) : ℚ :=
  if mfccVariation features < 15 then 15/100
  else if mfccVariation features > 25 then -(1/10)
  else 0

/-- The score adjustment of the spectral-centroid rule viewed in isolation. -/
def centroidDelta (features : FeatureSet) : ℚ :=
  if features.spectral_centroid_std < 400 then 1/10 else 0

/-- The score adjustment of the zero-crossing-rate rule viewed in isolation. -/
def zcrDelta (features : FeatureSet) : ℚ :=
  if features.zcr_std < 2/100 then 1/10 else 0

/-- The score adjustment of the RMS-energy rule viewed in isolation. -/
def rmsDelta (features : FeatureSet) : ℚ :=
  if features.rms_std < 1/100 then 1/10 else 0

/-- The score adjustment of the pitch-stability rule viewed in isolation. -/
def pitchDelta (features : FeatureSet) : ℚ :=
  if features.pitch_std < 50 ∧ features.pitch_mean > 0 then 5/100 else 0

/-- The five rule adjustments in source order. -/
def ruleDeltas (features : FeatureSet) : List ℚ :=
  [mfccDelta features, centroidDelta features, zcrDelta features,
   rmsDelta features, pitchDelta features]

/-- The sequentially accumulated score equals 0.5 plus the sum of the five
rule adjustments. -/
theorem scoreAcc_eq_sum (f : FeatureSet) :
    scoreAcc f = 1/2 + (ruleDeltas f).sum := by
  simp only [scoreAcc, ruleDeltas, mfccDelta, centroidDelta, zcrDelta, rmsDelta,
    pitchDelta, List.sum_cons, List.sum_nil]
  split_ifs <;> ring

/-- The reason list accumulated before fallback and truncation always has
at least two entries: the spectral-centroid rule and the RMS rule append
on both branches. -/
theorem reasonsList_length_ge_two (f : FeatureSet) :
    2 ≤ (reasonsList f).length := by
  simp only [reasonsList]
  split_ifs <;> simp

/-- C1: for every FeatureSet the returned probability lies in the closed
interval from 0.1 to 0.95, and the returned reasons list has length
exactly 3. -/
theorem probability_range_reasons_length (f : FeatureSet) :
    1/10 ≤ (detect_ai_voice f).1 ∧ (detect_ai_voice f).1 ≤ 19/20 ∧
      (detect_ai_voice f).2.2.length = 3 := by
  refine ⟨le_max_left _ _, max_le (by norm_num) (min_le_left _ _), ?_⟩
  have h2 := reasonsList_length_ge_two f
  simp only [detect_ai_voice, List.length_take]
  split_ifs with h
  · simp only [List.length_append, List.length_singleton]
    omega
  · omega

/-- C2: the label is the stated deterministic function of the clamped
probability: below 0.35 it is Low, from 0.35 up to but excluding 0.65 it
is Medium, and from 0.65 on it is High; in particular the mapping sends
0.349999 to Low, 0.35 to Medium, 0.649999 to Medium and 0.65 to High. -/
theorem label_of_clamped_probability :
    (∀ f : FeatureSet, (detect_ai_voice f).2.1 = labelOf (detect_ai_voice f).1) ∧
    (∀ p : ℚ, p < 35/100 → labelOf p = Label.low) ∧
    (∀ p : ℚ, 35/100 ≤ p → p < 65/100 → labelOf p = Label.medium) ∧
    (∀ p : ℚ, 65/100 ≤ p → labelOf p = Label.high) ∧
    labelOf (349999/1000000) = Label.low ∧
    labelOf (35/100) = Label.medium ∧
    labelOf (649999/1000000) = Label.medium ∧
    labelOf (65/100) = Label.high := by
  refine ⟨fun f => rfl, fun p h => ?_, fun p h1 h2 => ?_, fun p h => ?_, ?_, ?_, ?_, ?_⟩
  · simp [labelOf, h]
  · simp [labelOf, not_lt.mpr h1, h2]
  · have h1 : ¬ p < 35/100 := not_lt.mpr (by linarith)
    have h2 : ¬ p < 65/100 := not_lt.mpr h
    simp [labelOf, h1, h2]
  · norm_num [labelOf]
  · norm_num [labelOf]
  · norm_num [labelOf]
  · norm_num [labelOf]

/-- Witness for C2: the mapping at the concrete probability 0.5 yields
Medium, obtained by instantiating the interval clause of the theorem. -/
theorem label_of_clamped_probability_witness :
    labelOf (1/2) = Label.medium :=
  label_of_clamped_probability.2.2.1 (1/2) (by norm_num) (by norm_num)

/-- C10: the accumulator never drops below 0.40 (the only negative
adjustment is the single one of minus 0.10 applied to the starting 0.5),
so the probability is never below 0.40, the lower clamp bound 0.1 is
never the binding value, and the label Low is never produced. -/
theorem accumulator_lower_bound (f : FeatureSet) :
    2/5 ≤ scoreAcc f ∧
      (detect_ai_voice f).1 = min (19/20) (scoreAcc f) ∧
      2/5 ≤ (detect_ai_voice f).1 ∧
      (detect_ai_voice f).2.1 ≠ Label.low := by
  have hs : 2/5 ≤ scoreAcc f := by
    simp only [scoreAcc]
    split_ifs <;> norm_num
  have hmin : 2/5 ≤ min (19/20) (scoreAcc f) := le_min (by norm_num) hs
  have hprob : (detect_ai_voice f).1 = min (19/20) (scoreAcc f) := by
    simp only [detect_ai_voice]
    exact max_eq_right (le_trans (by norm_num) hmin)
  refine ⟨hs, hprob, hprob ▸ hmin, ?_⟩
  have hlab : (detect_ai_voice f).2.1 = labelOf (detect_ai_voice f).1 := rfl
  rw [hlab, hprob, labelOf]
  rw [if_neg (not_lt.mpr (by linarith))]
  split_ifs <;> simp

/-- C3: scenario A.  With MFCC variation 10, spectral-centroid standard
deviation 300, zero-crossing standard deviation 0.01, RMS standard
deviation 0.005, pitch standard deviation 20 and pitch mean 150, every
rule fires positively: the accumulator reaches 1.00, the clamped
probability is 0.95 with label High, and the reasons are the first three
rule reasons in rule order. -/
theorem scenario_A (f : FeatureSet) (hm : mfccVariation f = 10)
    (hc : f.spectral_centroid_std = 300) (hz : f.zcr_std = 1/100)
    (hr : f.rms_std = 1/200) (hps : f.pitch_std = 20) (hpm : f.pitch_mean = 150) :
    scoreAcc f = 1 ∧
      detect_ai_voice f =
        (19/20, Label.high,
          [Reason.lowMfccVariation, Reason.highSpectralStability,
           Reason.regularCrossingRate]) := by
  have hsc : scoreAcc f = 1 := by
    simp only [scoreAcc, hm, hc, hz, hr, hps, hpm]
    norm_num
  refine ⟨hsc, ?_⟩
  simp only [detect_ai_voice, reasonsList, labelOf, hsc, hm, hc, hz, hr, hps, hpm]
  norm_num [List.take]

/-- The concrete scenario-A feature set: the unused descriptors are zero
and the 13 MFCC band standard deviations are all 10 (so their mean is 10). -/
def scenarioAFeatures : FeatureSet :=
  ⟨[], List.replicate 13 10, 0, 300, 0, 0, 1/100, 0, 1/200, 150, 20⟩

/-- Witness for C3 at the concrete scenario-A feature set. -/
theorem scenario_A_witness :
    scoreAcc scenarioAFeatures = 1 ∧
      detect_ai_voice scenarioAFeatures =
        (19/20, Label.high,
          [Reason.lowMfccVariation, Reason.highSpectralStability,
           Reason.regularCrossingRate]) :=
  scenario_A scenarioAFeatures
    (by norm_num [mfccVariation, listMean, scenarioAFeatures, List.sum_replicate])
    rfl rfl rfl rfl rfl

/-- C4: scenario B.  With MFCC variation 30, spectral-centroid standard
deviation 600, zero-crossing standard deviation 0.05, RMS standard
deviation 0.05, pitch standard deviation 80 and pitch mean 0, the
accumulator is 0.5 minus 0.10 = 0.40, the probability is 0.40 with label
Medium, and the reasons are exactly high MFCC variation, natural-level
spectral variation and natural energy distribution. -/
theorem scenario_B (f : FeatureSet) (hm : mfccVariation f = 30)
    (hc : f.spectral_centroid_std = 600) (hz : f.zcr_std = 5/100)
    (hr : f.rms_std = 5/100) (hps : f.pitch_std = 80) (hpm : f.pitch_mean = 0) :
    scoreAcc f = 2/5 ∧
      detect_ai_voice f =
        (2/5, Label.medium,
          [Reason.highMfccVariation, Reason.naturalSpectralVariation,
           Reason.naturalEnergyDistribution]) := by
  have hsc : scoreAcc f = 2/5 := by
    simp only [scoreAcc, hm, hc, hz, hr, hps, hpm]
    norm_num
  refine ⟨hsc, ?_⟩
  simp only [detect_ai_voice, reasonsList, labelOf, hsc, hm, hc, hz, hr, hps, hpm]
  norm_num [List.take]

/-- The concrete scenario-B feature set: the unused descriptors are zero
and the 13 MFCC band standard deviations are all 30. -/
def scenarioBFeatures : FeatureSet :=
  ⟨[], List.replicate 13 30, 0, 600, 0, 0, 5/100, 0, 5/100, 0, 80⟩

/-- Witness for C4 at the concrete scenario-B feature set. -/
theorem scenario_B_witness :
    scoreAcc scenarioBFeatures = 2/5 ∧
      detect_ai_voice scenarioBFeatures =
        (2/5, Label.medium,
          [Reason.highMfccVariation, Reason.naturalSpectralVariation,
           Reason.naturalEnergyDistribution]) :=
  scenario_B scenarioBFeatures
    (by norm_num [mfccVariation, listMean, scenarioBFeatures, List.sum_replicate])
    rfl rfl rfl rfl rfl

/-- C5: decreasing the MFCC standard-deviation average from 20 to 10
while every other feature is held fixed never decreases the returned
probability. -/
theorem mfcc_decrease_monotone (f : FeatureSet) (l : List ℚ)
    (h20 : mfccVariation f = 20) (h10 : listMean l = 10) :
    (detect_ai_voice f).1 ≤ (detect_ai_voice { f with mfcc_std := l }).1 := by
  have hg : mfccVariation { f with mfcc_std := l } = 10 := h10
  have d1f : mfccDelta f = 0 := by simp only [mfccDelta, h20]; norm_num
  have d1g : mfccDelta { f with mfcc_std := l } = 15/100 := by
    simp only [mfccDelta, hg]; norm_num
  have d2 : centroidDelta { f with mfcc_std := l } = centroidDelta f := rfl
  have d3 : zcrDelta { f with mfcc_std := l } = zcrDelta f := rfl
  have d4 : rmsDelta { f with mfcc_std := l } = rmsDelta f := rfl
  have d5 : pitchDelta { f with mfcc_std := l } = pitchDelta f := rfl
  have hab : scoreAcc f ≤ scoreAcc { f with mfcc_std := l } := by
    rw [scoreAcc_eq_sum, scoreAcc_eq_sum]
    simp only [ruleDeltas, List.sum_cons, List.sum_nil, d1f, d1g, d2, d3, d4, d5]
    linarith
  show max (1/10) (min (19/20) (scoreAcc f)) ≤
    max (1/10) (min (19/20) (scoreAcc { f with mfcc_std := l }))
  exact max_le_max le_rfl (min_le_min le_rfl hab)

/-- A concrete feature set whose MFCC variation is 20. -/
def midMfccFeatures : FeatureSet :=
  ⟨[], List.replicate 13 20, 0, 300, 0, 0, 1/100, 0, 1/200, 150, 20⟩

/-- Witness for C5: lowering the MFCC band standard deviations of the
concrete feature set from all 20 to all 10 does not decrease the
probability. -/
theorem mfcc_decrease_monotone_witness :
    (detect_ai_voice midMfccFeatures).1 ≤
      (detect_ai_voice { midMfccFeatures with mfcc_std := List.replicate 13 10 }).1 :=
  mfcc_decrease_monotone midMfccFeatures (List.replicate 13 10)
    (by norm_num [mfccVariation, listMean, midMfccFeatures, List.sum_replicate])
    (by norm_num [listMean, List.sum_replicate])

/-- C6: when the pitch mean is 0 the pitch-stability rule never fires,
whatever the pitch standard deviation: its adjustment is 0, the
accumulator is exactly the sum of the four other rules over the 0.5
start, and the pitch-stability reason is absent from the returned
reasons. -/
theorem zero_pitch_mean_no_bonus (f : FeatureSet) (h : f.pitch_mean = 0) :
    pitchDelta f = 0 ∧
      scoreAcc f = 1/2 + mfccDelta f + centroidDelta f + zcrDelta f + rmsDelta f ∧
      Reason.highPitchStability ∉ (detect_ai_voice f).2.2 := by
  have hcond : ¬ (f.pitch_std < 50 ∧ f.pitch_mean > 0) := by
    rw [h]; simp
  have hd : pitchDelta f = 0 := by simp only [pitchDelta, if_neg hcond]
  refine ⟨hd, ?_, ?_⟩
  · have hs := scoreAcc_eq_sum f
    simp only [ruleDeltas, List.sum_cons, List.sum_nil] at hs
    rw [hs, hd]; ring
  · have hnotin : Reason.highPitchStability ∉ reasonsList f := by
      simp only [reasonsList, if_neg hcond]
      split_ifs <;> simp
    have hfull : Reason.highPitchStability ∉
        (if (reasonsList f).length < 3
          then reasonsList f ++ [Reason.generalAcousticPattern]
          else reasonsList f) := by
      split_ifs
      · simp only [List.mem_append, List.mem_singleton]
        rintro (hmem | hmem)
        · exact hnotin hmem
        · exact absurd hmem (by simp)
      · exact hnotin
    simp only [detect_ai_voice]
    exact fun hmem => hfull (List.take_subset _ _ hmem)

/-- A concrete feature set with pitch mean 0 and a small pitch standard
deviation. -/
def zeroPitchFeatures : FeatureSet :=
  ⟨[], List.replicate 13 10, 0, 300, 0, 0, 1/100, 0, 1/200, 0, 5⟩

/-- Witness for C6 at the concrete zero-pitch-mean feature set. -/
theorem zero_pitch_mean_no_bonus_witness :
    pitchDelta zeroPitchFeatures = 0 ∧
      scoreAcc zeroPitchFeatures = 1/2 + mfccDelta zeroPitchFeatures +
        centroidDelta zeroPitchFeatures + zcrDelta zeroPitchFeatures +
        rmsDelta zeroPitchFeatures ∧
      Reason.highPitchStability ∉ (detect_ai_voice zeroPitchFeatures).2.2 :=
  zero_pitch_mean_no_bonus zeroPitchFeatures rfl

/-- C8: the numeric accumulator is order independent.  Summing the five
rule adjustments in any permuted order over the 0.5 start yields the
accumulator, hence the same clamped probability as detect_ai_voice. -/
theorem score_order_independent (f : FeatureSet) (l : List ℚ)
    (h : l.Perm (ruleDeltas f)) :
    1/2 + l.sum = scoreAcc f ∧
      max (1/10) (min (19/20) (1/2 + l.sum)) = (detect_ai_voice f).1 := by
  have h1 : 1/2 + l.sum = scoreAcc f := by rw [h.sum_eq, scoreAcc_eq_sum]
  exact ⟨h1, by rw [h1]; rfl⟩

/-- A concrete feature set for the permutation witness: the MFCC rule
contributes 0.15, the pitch rule 0.05, the three middle rules 0. -/
def permFeatures : FeatureSet := ⟨[], [12], 0, 500, 0, 0, 1, 0, 1, 1, 1⟩

/-- Witness for C8: swapping the first two adjustments of the concrete
feature set leaves the accumulator and probability unchanged. -/
theorem score_order_independent_witness :
    1/2 + ([0, 15/100, 0, 0, 5/100] : List ℚ).sum = scoreAcc permFeatures ∧
      max (1/10) (min (19/20) (1/2 + ([0, 15/100, 0, 0, 5/100] : List ℚ).sum)) =
        (detect_ai_voice permFeatures).1 := by
  have hrd : ruleDeltas permFeatures = [15/100, 0, 0, 0, 5/100] := by
    norm_num [ruleDeltas, mfccDelta, centroidDelta, zcrDelta, rmsDelta, pitchDelta,
      mfccVariation, listMean, permFeatures]
  exact score_order_independent permFeatures [0, 15/100, 0, 0, 5/100]
    (by rw [hrd]; exact List.Perm.swap (15/100) 0 [0, 0, 5/100])

/-- Binding a failed Except computation propagates the error. -/
theorem except_error_bind {ε α β : Type} (e : ε) (f : α → Except ε β) :
    (Except.error e >>= f : Except ε β) = Except.error e := rfl

/-- Binding a successful Except computation applies the continuation. -/
theorem except_ok_bind {ε α β : Type} (a : α) (f : α → Except ε β) :
    (Except.ok a >>= f : Except ε β) = f a := rfl

/-- pure in the Except monad is the ok constructor. -/
theorem except_pure_eq_ok {ε α : Type} (a : α) :
    (pure a : Except ε α) = Except.ok a := rfl

/-- When no frame has a strictly positive selected pitch, the voiced
collection is empty. -/
theorem pitchValues_eq_nil (frames : List PitchFrame)
    (h : ∀ fr ∈ frames, ¬ selectedPitch fr > 0) : pitchValues frames = [] :=
  List.filterMap_eq_nil_iff.mpr fun fr hfr => if_neg (h fr hfr)

/-- C7: on any buffer whose pitch-tracking output has no frame with a
strictly positive selected pitch, a successful extraction reports pitch
mean exactly 0 and pitch standard deviation exactly 0, for every numeric
library (so no undefined value is ever involved). -/
theorem zero_voiced_frames_pitch_zero (lib : AudioLib) (num : NumLib)
    (audio : List ℚ) (frames : List PitchFrame) (fs : FeatureSet)
    (hpt : lib.piptrack audio = .ok frames)
    (hvoiced : ∀ fr ∈ frames, ¬ selectedPitch fr > 0)
    (hok : extract_audio_features lib num audio = .ok fs) :
    fs.pitch_mean = 0 ∧ fs.pitch_std = 0 := by
  have hpv : pitchValues frames = [] := pitchValues_eq_nil frames hvoiced
  unfold extract_audio_features at hok
  cases hm : lib.mfcc audio with
  | error e => rw [hm, except_error_bind] at hok; exact Except.noConfusion hok
  | ok mfcc =>
  rw [hm, except_ok_bind] at hok
  cases hc : lib.spectral_centroid audio with
  | error e => rw [hc, except_error_bind] at hok; exact Except.noConfusion hok
  | ok sc =>
  rw [hc, except_ok_bind] at hok
  cases hsr : lib.spectral_rolloff audio with
  | error e => rw [hsr, except_error_bind] at hok; exact Except.noConfusion hok
  | ok sro =>
  rw [hsr, except_ok_bind] at hok
  cases hz : lib.zero_crossing_rate audio with
  | error e => rw [hz, except_error_bind] at hok; exact Except.noConfusion hok
  | ok zcr =>
  rw [hz, except_ok_bind] at hok
  cases hr : lib.rms audio with
  | error e => rw [hr, except_error_bind] at hok; exact Except.noConfusion hok
  | ok rms =>
  rw [hr, except_ok_bind] at hok
  rw [hpt, except_ok_bind, except_pure_eq_ok] at hok
  injection hok with hfs
  rw [← hfs]
  simp [hpv]

/-- C9: extraction is all-or-nothing.  If the spectral transform fails on
the buffer, the extraction call fails with that same typed error; and any
successful extraction means every transform succeeded and the returned
FeatureSet is fully populated from their results. -/
theorem extract_all_or_nothing (lib : AudioLib) (num : NumLib) (audio : List ℚ) :
    (∀ e, lib.mfcc audio = .error e →
        extract_audio_features lib num audio = .error e) ∧
    (∀ fs, extract_audio_features lib num audio = .ok fs →
      ∃ mfcc sc sro zcr rms frames,
        lib.mfcc audio = .ok mfcc ∧
        lib.spectral_centroid audio = .ok sc ∧
        lib.spectral_rolloff audio = .ok sro ∧
        lib.zero_crossing_rate audio = .ok zcr ∧
        lib.rms audio = .ok rms ∧
        lib.piptrack audio = .ok frames ∧
        fs = { mfcc_mean := mfcc.map listMean
               mfcc_std := mfcc.map num.std
               spectral_centroid_mean := listMean sc
               spectral_centroid_std := num.std sc
               spectral_rolloff_mean := listMean sro
               zcr_mean := listMean zcr
               zcr_std := num.std zcr
               rms_mean := listMean rms
               rms_std := num.std rms
               pitch_mean := if pitchValues frames ≠ [] then listMean (pitchValues frames) else 0
               pitch_std := if pitchValues frames ≠ [] then num.std (pitchValues frames) else 0 }) := by
  constructor
  · intro e he
    unfold extract_audio_features
    rw [he, except_error_bind]
  · intro fs hok
    unfold extract_audio_features at hok
    cases hm : lib.mfcc audio with
    | error e => rw [hm, except_error_bind] at hok; exact Except.noConfusion hok
    | ok mfcc =>
    rw [hm, except_ok_bind] at hok
    cases hc : lib.spectral_centroid audio with
    | error e => rw [hc, except_error_bind] at hok; exact Except.noConfusion hok
    | ok sc =>
    rw [hc, except_ok_bind] at hok
    cases hsr : lib.spectral_rolloff audio with
    | error e => rw [hsr, except_error_bind] at hok; exact Except.noConfusion hok
    | ok sro =>
    rw [hsr, except_ok_bind] at hok
    cases hz : lib.zero_crossing_rate audio with
    | error e => rw [hz, except_error_bind] at hok; exact Except.noConfusion hok
    | ok zcr =>
    rw [hz, except_ok_bind] at hok
    cases hr : lib.rms audio with
    | error e => rw [hr, except_error_bind] at hok; exact Except.noConfusion hok
    | ok rms =>
    rw [hr, except_ok_bind] at hok
    cases hp : lib.piptrack audio with
    | error e => rw [hp, except_error_bind] at hok; exact Except.noConfusion hok
    | ok frames =>
    rw [hp, except_ok_bind, except_pure_eq_ok] at hok
    injection hok with hfs
    exact ⟨mfcc, sc, sro, zcr, rms, frames, rfl, rfl, rfl, rfl, rfl, rfl, hfs.symm⟩

/-- A concrete audio library whose spectral transform fails exactly on
the empty buffer. -/
def emptyFailLib : AudioLib where
  mfcc audio :=
    if audio = [] then .error (.parameterError "empty buffer") else .ok [audio]
  spectral_centroid audio := .ok audio
  spectral_rolloff audio := .ok audio
  zero_crossing_rate audio := .ok audio
  rms audio := .ok audio
  piptrack _ := .ok []

/-- A concrete numeric library whose std function is constantly zero. -/
def zeroNumLib : NumLib where
  std _ := 0

/-- Witness for C9: on the empty buffer the concrete library fails and
the extraction call returns exactly that typed error. -/
theorem extract_all_or_nothing_witness :
    extract_audio_features emptyFailLib zeroNumLib [] =
      .error (.parameterError "empty buffer") :=
  (extract_all_or_nothing emptyFailLib zeroNumLib []).1
    (.parameterError "empty buffer") rfl

/-- A concrete audio library whose pitch tracker reports a single frame
whose strongest bin has pitch 0 (an unvoiced frame). -/
def silentLib : AudioLib where
  mfcc _ := .ok [[1], [2]]
  spectral_centroid _ := .ok [3]
  spectral_rolloff _ := .ok [4]
  zero_crossing_rate _ := .ok [5]
  rms _ := .ok [6]
  piptrack _ := .ok [⟨[0, 0], [1, 2]⟩]

/-- The feature set the concrete unvoiced extraction produces. -/
def silentFeatures : FeatureSet := ⟨[1, 2], [0, 0], 3, 0, 4, 5, 0, 6, 0, 0, 0⟩

/-- Witness for C7: the concrete extraction with an unvoiced pitch frame
succeeds with pitch mean 0 and pitch standard deviation 0. -/
theorem zero_voiced_frames_pitch_zero_witness :
    silentFeatures.pitch_mean = 0 ∧ silentFeatures.pitch_std = 0 :=
  zero_voiced_frames_pitch_zero silentLib zeroNumLib [7] [⟨[0, 0], [1, 2]⟩]
    silentFeatures rfl
    (by
      intro fr hfr
      simp only [List.mem_singleton] at hfr
      subst hfr
      norm_num [selectedPitch, argmaxIdx, List.range, List.range.loop])
    (by
      norm_num [extract_audio_features, silentLib, zeroNumLib, except_ok_bind,
        except_pure_eq_ok, pitchValues, selectedPitch, argmaxIdx, listMean,
        silentFeatures, List.range, List.range.loop]
      rfl)
